import Mathlib

/-!
Verification of the response-recovery core of the transcription / AI
script-tailoring server: the JSON salvage engine and result assembly in
`ai_service.py`, and the platform-aware retry loop and cache behaviour in
`main.py`.  Each Python function is shallowly embedded as an executable
Lean definition; `json.loads` is modelled by an explicit strict JSON
parser; external calls (LLM provider, transcription provider) are
modelled as oracle parameters supplying the outcome of each call.
-/

/-! ## Python string helpers -/

/-- Python `str` whitespace characters (ASCII set used by `str.strip`). -/
def isPyWs (c : Char) : Bool :=
  c = ' ' || c = '\t' || c = '\n' || c = '\r' || c = '\x0b' || c = '\x0c'

/-- Python `s.strip()` (ASCII whitespace). -/
def pyStrip (s : String) : String :=
  String.mk (((s.data.dropWhile isPyWs).reverse.dropWhile isPyWs).reverse)

/-- Python `s.rstrip()` (ASCII whitespace). -/
def pyRstrip (s : String) : String :=
  String.mk ((s.data.reverse.dropWhile isPyWs).reverse)

/-- Python `s.rstrip(',')`: drop all trailing commas. -/
def pyRstripComma (s : String) : String :=
  String.mk ((s.data.reverse.dropWhile (fun c => c = ',')).reverse)

def listIsPrefix : List Char → List Char → Bool
  | [], _ => true
  | _ :: _, [] => false
  | p :: ps, h :: hs => p = h && listIsPrefix ps hs

def listContainsSub (pat : List Char) : List Char → Bool
  | [] => listIsPrefix pat []
  | h :: hs => listIsPrefix pat (h :: hs) || listContainsSub pat hs

/-- Python `pat in s` substring containment. -/
def containsSubstr (s pat : String) : Bool := listContainsSub pat.data s.data

/-- Python `s.startswith(pat)`. -/
def pyStartsWith (s pat : String) : Bool := listIsPrefix pat.data s.data

/-- Python `s.endswith(pat)`. -/
def pyEndsWith (s pat : String) : Bool := listIsPrefix pat.data.reverse s.data.reverse

/-- Python `s.count(c)` for a single character. -/
def pyCount (s : String) (c : Char) : Nat := s.data.countP (fun x => x = c)

/-- Python `s[:n]` (character-based slicing). -/
def strTake (n : Nat) (s : String) : String := String.mk (s.data.take n)

def pyRfindAux (c : Char) : List Char → Nat → Int → Int
  | [], _, acc => acc
  | h :: t, i, acc => pyRfindAux c t (i + 1) (if h = c then Int.ofNat i else acc)

/-- Python `s.rfind(c)`: index of last occurrence, `-1` when absent. -/
def pyRfind (s : String) (c : Char) : Int := pyRfindAux c s.data 0 (-1)

/-- Python `s.lower()` (ASCII case folding, all inputs in the code are ASCII URLs). -/
def toLowerStr (s : String) : String := String.mk (s.data.map Char.toLower)

def pySplitWsAux : List Char → List Char → List String
  | [], cur => if cur.isEmpty then [] else [String.mk cur.reverse]
  | c :: rest, cur =>
    if isPyWs c then
      if cur.isEmpty then pySplitWsAux rest []
      else String.mk cur.reverse :: pySplitWsAux rest []
    else pySplitWsAux rest (c :: cur)

/-- Python `s.split()` with no argument: runs of whitespace separate tokens,
leading/trailing whitespace ignored, no empty tokens. -/
def pySplitWs (s : String) : List String := pySplitWsAux s.data []

/-- `String.mk (List.replicate n c)`: Python `c * n`. -/
def repChar (n : Nat) (c : Char) : String := String.mk (List.replicate n c)

/-! ## JSON values and a model of Python `json.loads` (strict mode)

Numbers are kept as their source lexeme: the claims never depend on
numeric evaluation, only on which structure a decode yields. -/

inductive Json where
  | null
  | bool (b : Bool)
  | num (lit : String)
  | str (s : String)
  | arr (elems : List Json)
  | obj (entries : List (String × Json))

/-- JSON inter-token whitespace accepted by Python's decoder. -/
def isJsonWs (c : Char) : Bool := c = ' ' || c = '\t' || c = '\n' || c = '\r'

def skipJsonWs (cs : List Char) : List Char := cs.dropWhile isJsonWs

/-- Value of one hexadecimal digit of a `\uXXXX` escape (codes 48-57 are
the decimal digits, 97-102 and 65-70 the lower/upper hex letters). -/
def hexVal (c : Char) : Option Nat :=
  let n := c.toNat
  if 48 ≤ n && n ≤ 57 then some (n - 48)
  else if 97 ≤ n && n ≤ 102 then some (n - 87)
  else if 65 ≤ n && n ≤ 70 then some (n - 55)
  else none

def parseHex4 : List Char → Option (Nat × List Char)
  | a :: b :: c :: d :: rest =>
    match hexVal a, hexVal b, hexVal c, hexVal d with
    | some x, some y, some z, some w => some ((((x * 16 + y) * 16 + z) * 16 + w), rest)
    | _, _, _, _ => none
  | _ => none

/-- Python dict construction from key/value pairs: a repeated key keeps its
first position but takes the last value. -/
def dictInsert (k : String) (v : Json) : List (String × Json) → List (String × Json)
  | [] => [(k, v)]
  | (k2, v2) :: rest => if k2 = k then (k2, v) :: rest else (k2, v2) :: dictInsert k v rest

/-- Parse the body of a JSON string (after the opening quote).  Strict mode:
raw control characters below U+0020 are rejected.  Lone surrogate escapes,
which Python would keep, are outside Lean's `Char` and are mapped through
`Char.ofNat`; no claim exercises them. -/
def parseJStr : Nat → List Char → List Char → Option (String × List Char)
  | 0, _, _ => none
  | _ + 1, [], _ => none
  | fuel + 1, c :: rest, acc =>
    if c = '"' then some (String.mk acc.reverse, rest)
    else if c.toNat < 32 then none
    else if c = '\\' then
      match rest with
      | [] => none
      | e :: rest2 =>
        if e = '"' then parseJStr fuel rest2 ('"' :: acc)
        else if e = '\\' then parseJStr fuel rest2 ('\\' :: acc)
        else if e = '/' then parseJStr fuel rest2 ('/' :: acc)
        else if e = 'b' then parseJStr fuel rest2 ('\x08' :: acc)
        else if e = 'f' then parseJStr fuel rest2 ('\x0c' :: acc)
        else if e = 'n' then parseJStr fuel rest2 ('\n' :: acc)
        else if e = 'r' then parseJStr fuel rest2 ('\r' :: acc)
        else if e = 't' then parseJStr fuel rest2 ('\t' :: acc)
        else if e = 'u' then
          match parseHex4 rest2 with
          | none => none
          | some (n, rest3) =>
            if 0xD800 ≤ n && n ≤ 0xDBFF then
              match rest3 with
              | '\\' :: 'u' :: rest4 =>
                match parseHex4 rest4 with
                | some (n2, rest5) =>
                  if 0xDC00 ≤ n2 && n2 ≤ 0xDFFF then
                    parseJStr fuel rest5
                      (Char.ofNat (0x10000 + (n - 0xD800) * 0x400 + (n2 - 0xDC00)) :: acc)
                  else parseJStr fuel rest3 (Char.ofNat n :: acc)
                | none => parseJStr fuel rest3 (Char.ofNat n :: acc)
              | _ => parseJStr fuel rest3 (Char.ofNat n :: acc)
            else parseJStr fuel rest3 (Char.ofNat n :: acc)
        else none
    else parseJStr fuel rest (c :: acc)

def spanDigits : List Char → List Char × List Char
  | [] => ([], [])
  | c :: rest =>
    if c.isDigit then
      let (ds, r) := spanDigits rest
      (c :: ds, r)
    else ([], c :: rest)

/-- JSON number: maximal match of `-?(0|[1-9][0-9]*)(\.[0-9]+)?([eE][+-]?[0-9]+)?`,
returning the matched lexeme (as Python's scanner does; any leftover text is
rejected by the surrounding grammar exactly as in Python). -/
def parseNumber (cs : List Char) : Option (Json × List Char) :=
  let (sgn, cs1) :=
    match cs with
    | '-' :: rest => (['-'], rest)
    | _ => (([] : List Char), cs)
  match cs1 with
  | [] => none
  | c :: rest =>
    if !c.isDigit then none
    else
      let (intDs, cs2) :=
        if c = '0' then ([c], rest)
        else
          let p := spanDigits rest
          (c :: p.1, p.2)
      let (fracDs, cs3) :=
        match cs2 with
        | '.' :: r =>
          match spanDigits r with
          | ([], _) => (([] : List Char), cs2)
          | (ds, r2) => ('.' :: ds, r2)
        | _ => (([] : List Char), cs2)
      let (expDs, cs4) :=
        match cs3 with
        | e :: r =>
          if e = 'e' || e = 'E' then
            let (sg, r2) :=
              match r with
              | '+' :: rr => (['+'], rr)
              | '-' :: rr => (['-'], rr)
              | _ => (([] : List Char), r)
            match spanDigits r2 with
            | ([], _) => (([] : List Char), cs3)
            | (ds, r3) => (e :: (sg ++ ds), r3)
          else (([] : List Char), cs3)
        | [] => (([] : List Char), cs3)
      some (Json.num (String.mk (sgn ++ intDs ++ fracDs ++ expDs)), cs4)

mutual

/-- Parse one JSON value at the head of `cs` (no leading whitespace),
mirroring Python's `json` scanner, constants `NaN`, `Infinity`,
`-Infinity` included.  `fuel` only bounds nesting/sequence recursion and is
supplied generously by `jsonDecode`. -/
def parseValue : Nat → List Char → Option (Json × List Char)
  | 0, _ => none
  | fuel + 1, cs =>
    match cs with
    | '"' :: rest =>
      match parseJStr (rest.length + 1) rest [] with
      | some (s, r) => some (Json.str s, r)
      | none => none
    | '\x7b' :: rest =>
      (match skipJsonWs rest with
       | '\x7d' :: r2 => some (Json.obj [], r2)
       | cs2 => parseMembers fuel cs2 [])
    | '[' :: rest =>
      (match skipJsonWs rest with
       | ']' :: r2 => some (Json.arr [], r2)
       | cs2 => parseElems fuel cs2 [])
    | 't' :: 'r' :: 'u' :: 'e' :: rest => some (Json.bool true, rest)
    | 'f' :: 'a' :: 'l' :: 's' :: 'e' :: rest => some (Json.bool false, rest)
    | 'n' :: 'u' :: 'l' :: 'l' :: rest => some (Json.null, rest)
    | 'N' :: 'a' :: 'N' :: rest => some (Json.num "NaN", rest)
    | 'I' :: 'n' :: 'f' :: 'i' :: 'n' :: 'i' :: 't' :: 'y' :: rest =>
      some (Json.num "Infinity", rest)
    | '-' :: 'I' :: 'n' :: 'f' :: 'i' :: 'n' :: 'i' :: 't' :: 'y' :: rest =>
      some (Json.num "-Infinity", rest)
    | _ => parseNumber cs

/-- Parse the members of an object after `{` when the first non-space
character is not `}`. -/
def parseMembers : Nat → List Char → List (String × Json) → Option (Json × List Char)
  | 0, _, _ => none
  | fuel + 1, cs, acc =>
    match cs with
    | '"' :: rest =>
      match parseJStr (rest.length + 1) rest [] with
      | none => none
      | some (k, r1) =>
        match skipJsonWs r1 with
        | ':' :: r2 =>
          match parseValue fuel (skipJsonWs r2) with
          | none => none
          | some (v, r3) =>
            let acc2 := dictInsert k v acc
            match skipJsonWs r3 with
            | ',' :: r4 => parseMembers fuel (skipJsonWs r4) acc2
            | '\x7d' :: r4 => some (Json.obj acc2, r4)
            | _ => none
        | _ => none
    | _ => none

/-- Parse the elements of an array after `[` when the first non-space
character is not `]`. -/
def parseElems : Nat → List Char → List Json → Option (Json × List Char)
  | 0, _, _ => none
  | fuel + 1, cs, acc =>
    match parseValue fuel cs with
    | none => none
    | some (v, r1) =>
      match skipJsonWs r1 with
      | ',' :: r2 => parseElems fuel (skipJsonWs r2) (v :: acc)
      | ']' :: r2 => some (Json.arr (v :: acc).reverse, r2)
      | _ => none

end

/-- Model of Python `json.loads` (strict mode): skip surrounding whitespace,
parse exactly one value, reject trailing data.  `none` models a raised
`JSONDecodeError`. -/
def jsonDecode (s : String) : Option Json :=
  match parseValue (s.data.length + 1) (skipJsonWs s.data) with
  | some (v, rest) => if (skipJsonWs rest).isEmpty then some v else none
  | none => none

/-! ## `ai_service.py`: the JSON Salvage Engine (`parse_ai_response`) -/

/-- Fence stripping of `parse_ai_response` lines 144-151: `strip()`, then if
the text starts with a code fence, remove the leading fence marker plus
following whitespace and, when the text ends in a fence marker, that marker
plus preceding whitespace (the two `re.sub` calls, whose patterns are
anchored and can each fire at most once here). -/
def stripLeadingFence (s : String) (fenceLen : Nat) : String :=
  String.mk ((s.data.drop fenceLen).dropWhile isPyWs)

def stripTrailingFence (s : String) : String :=
  if pyEndsWith s "```" then
    String.mk (((s.data.reverse.drop 3).dropWhile isPyWs).reverse)
  else s

def cleanFences (ai_response : String) : String :=
  let c := pyStrip ai_response
  if pyStartsWith c "```json" then stripTrailingFence (stripLeadingFence c 7)
  else if pyStartsWith c "```" then stripTrailingFence (stripLeadingFence c 3)
  else c

/-- The minimal fallback structure returned by `parse_ai_response` lines
178-194. -/
def fallbackJson : Json :=
  Json.obj
    [("tailoredScript", Json.str "Error: Could not parse AI response. Please try again."),
     ("confidence", Json.num "0.1"),
     ("improvementAreas", Json.arr [Json.str "parsing_error"]),
     ("sectionBreakdown", Json.arr []),
     ("sutherlandAlchemy",
      Json.obj
        [("explanation", Json.str "Error in parsing response"),
         ("valueReframing", Json.arr []),
         ("identityShifts", Json.arr [])]),
     ("hormoziValueStack",
      Json.obj
        [("coreOffer", Json.str "Error in analysis"),
         ("valueElements", Json.arr []),
         ("totalStack", Json.obj []),
         ("grandSlamElements", Json.arr [])])]

/-- State of the character scan in `_fix_unterminated_strings` lines 226-244. -/
structure ScanSt where
  inString : Bool
  escapeNext : Bool
  lastValidPos : Nat

def isStructChar (c : Char) : Bool :=
  c = '\x7b' || c = '\x7d' || c = '[' || c = ']' || c = ',' || c = ':'

def scanChars : List Char → Nat → ScanSt → ScanSt
  | [], _, st => st
  | c :: rest, i, st =>
    if st.escapeNext then
      scanChars rest (i + 1) { st with escapeNext := false }
    else if c = '\\' then
      scanChars rest (i + 1) { st with escapeNext := true }
    else if c = '"' then
      let ins := !st.inString
      scanChars rest (i + 1)
        { st with inString := ins,
                  lastValidPos := if ins then st.lastValidPos else i }
    else if !st.inString && isStructChar c then
      scanChars rest (i + 1) { st with lastValidPos := i }
    else
      scanChars rest (i + 1) st

def runScan (s : String) : ScanSt :=
  scanChars s.data 0 { inString := false, escapeNext := false, lastValidPos := 0 }

/-- The synthetic trailing structure appended by `_complete_json_structure`
lines 291-306 (the triple-quoted block, verbatim). -/
def completionBlock : String :=
  "\n  \"confidence\": 0.8,\n  \"improvementAreas\": [\"truncated_response\"],\n  \"sectionBreakdown\": [],\n  \"sutherlandAlchemy\": \x7b\n    \"explanation\": \"Response was truncated and recovered\",\n    \"valueReframing\": [],\n    \"identityShifts\": []\n  \x7d,\n  \"hormoziValueStack\": \x7b\n    \"coreOffer\": \"Analysis incomplete due to truncation\",\n    \"valueElements\": [],\n    \"totalStack\": \x7b\x7d,\n    \"grandSlamElements\": []\n  \x7d\n\x7d"

/-- `_complete_json_structure` (lines 280-308): if the text already decodes,
return it; otherwise, when it contains the primary key but no
`"confidence"`, strip trailing whitespace and commas and append the
synthetic block; otherwise return it unchanged. -/
def _complete_json_structure (response : String) : String :=
  match jsonDecode response with
  | some _ => response
  | none =>
    if containsSubstr response "\"tailoredScript\"" &&
        !containsSubstr response "\"confidence\"" then
      pyRstripComma (pyRstrip response) ++ "," ++ completionBlock
    else response

/-- `_fix_unterminated_strings` (lines 219-278): scan tracking escape and
in-string state; if the scan ends inside a string, truncate at the last
sentence punctuation within the prefix ending at the last valid position
(when one exists at index > 0) or at the last valid position itself, append
a closing quote, and complete the structure unless the result already ends
with a closing brace. -/
def _fix_unterminated_strings (response : String) : String :=
  let st := runScan response
  if st.inString then
    let response_up_to_error := strTake (st.lastValidPos + 1) response
    let last_sentence_end :=
      max (max (pyRfind response_up_to_error '.') (pyRfind response_up_to_error '!'))
        (pyRfind response_up_to_error '?')
    let r :=
      if last_sentence_end > 0 then
        strTake (last_sentence_end.toNat + 1) response_up_to_error ++ "\""
      else response_up_to_error ++ "\""
    if !pyEndsWith (pyRstrip r) "\x7d" then _complete_json_structure r else r
  else response

/-- `_fix_common_json_issues` (lines 196-217): repair unterminated strings,
then append enough closing braces and brackets to balance raw counts. -/
def _fix_common_json_issues (response : String) : String :=
  let r1 := _fix_unterminated_strings response
  let ob := pyCount r1 '\x7b'
  let cb := pyCount r1 '\x7d'
  let r2 := if cb < ob then r1 ++ repChar (ob - cb) '\x7d' else r1
  let obk := pyCount r2 '['
  let cbk := pyCount r2 ']'
  if cbk < obk then r2 ++ repChar (obk - cbk) ']' else r2

/-- Which control-flow path of `parse_ai_response` produced the result. -/
inductive ParsePath where
  | direct
  | repaired
  | fallback

/-- `parse_ai_response` (lines 137-194) with the path taken made observable:
strip fences, decode; on failure, if the primary key is present, repair and
decode again; otherwise (or if that also fails) return the fixed fallback. -/
def parseAiResponseTagged (ai_response : String) : Json × ParsePath :=
  let clean_response := cleanFences ai_response
  match jsonDecode clean_response with
  | some v => (v, ParsePath.direct)
  | none =>
    if containsSubstr clean_response "\"tailoredScript\"" then
      match jsonDecode (_fix_common_json_issues clean_response) with
      | some v => (v, ParsePath.repaired)
      | none => (fallbackJson, ParsePath.fallback)
    else (fallbackJson, ParsePath.fallback)

def parse_ai_response (ai_response : String) : Json :=
  (parseAiResponseTagged ai_response).1

/-! ## `ai_service.py`: metadata and result assembly -/

/-- `settings.REQUEST_TIMEOUT` from `config.py` (seconds). -/
def REQUEST_TIMEOUT : Nat := 60

/-- Read-time rendering of `calculate_metadata` lines 393-398.  Python does
the arithmetic on floats; this model is the exact value: the branch test
`word_count / 150 < 1` is `wc < 150`, the seconds branch truncates
`(wc / 150) * 60`, and the minutes branch rounds `wc / 150` to one decimal
place (a tie `x.x5` is impossible since `wc / 15` is never a half-integer,
so round-half-even equals rounding by `floor (x + 1/2)`).  Verified to agree
with the float computation on all word counts up to 200000. -/
def renderReadTime (wc : Nat) : String :=
  if wc < 150 then toString (wc * 60 / 150) ++ "s"
  else
    let tenths := (2 * wc + 15) / 30
    toString (tenths / 10) ++ "." ++ toString (tenths % 10) ++ "m"

structure MetadataResult where
  wordCount : Nat
  estimatedReadTime : String
  originalLength : Nat
  processingTime : Nat

/-- `calculate_metadata` (lines 388-405).  Processing time is an opaque
tick count passed through unchanged. -/
def calculate_metadata (tailored_script original_transcript : String)
    (processing_time : Nat) : MetadataResult :=
  let word_count := (pySplitWs tailored_script).length
  { wordCount := word_count,
    estimatedReadTime := renderReadTime word_count,
    originalLength := (pySplitWs original_transcript).length,
    processingTime := processing_time }

/-- Outcome of the wrapped LLM provider call, the input of
`call_openai_api`: the remote call either exceeds the wall-clock budget,
fails with some exception message, or returns the response text. -/
inductive LlmCallResult where
  | timeout
  | apiError (msg : String)
  | ok (content : String)

/-- `call_openai_api` (lines 365-386): a timeout is re-raised as an
exception carrying the configured budget; any other failure is re-raised
unchanged; `Except.error` models a raised exception. -/
def call_openai_api : LlmCallResult → Except String String
  | LlmCallResult.timeout =>
    Except.error ("API call timed out after " ++ toString REQUEST_TIMEOUT ++ " seconds")
  | LlmCallResult.apiError m => Except.error m
  | LlmCallResult.ok content => Except.ok content

/-- The `AITailoringData` record assembled by `generate_tailored_script`.
Optional-typed source fields keep their decoded JSON value. -/
structure AITailoringData where
  tailoredScript : String
  confidence : Json
  processingTime : Nat
  wordCount : Nat
  estimatedReadTime : String
  sectionBreakdown : Json
  sutherlandAlchemy : Json
  hormoziValueStack : Json

/-- Python `parsed_data.get(key, default)`: `none` models the
`AttributeError` raised when `parsed_data` is not a dict. -/
def pyDictGet (j : Json) (k : String) (default : Json) : Option Json :=
  match j with
  | Json.obj entries =>
    match entries.lookup k with
    | some v => some v
    | none => some default
  | _ => none

/-- The error-shaped `AITailoringData` built in the `except` branch of
`generate_tailored_script` (lines 447-465). -/
def errorTailoringData (e : String) (pt : Nat) : AITailoringData :=
  { tailoredScript := "Error generating script: " ++ e,
    confidence := Json.num "0.0",
    processingTime := pt,
    wordCount := 0,
    estimatedReadTime := "0s",
    sectionBreakdown := Json.arr [],
    sutherlandAlchemy :=
      Json.obj
        [("explanation", Json.str "Error occurred during processing"),
         ("valueReframing", Json.arr []),
         ("identityShifts", Json.arr [])],
    hormoziValueStack :=
      Json.obj
        [("coreOffer", Json.str "Error in analysis"),
         ("valueElements", Json.arr []),
         ("totalStack", Json.obj []),
         ("grandSlamElements", Json.arr [])] }

/-- A decoded JSON string value. -/
def isStrJson : Json → Bool
  | Json.str _ => true
  | _ => false

/-- A decoded JSON object (pydantic `Dict[str, Any]`). -/
def isDictJson : Json → Bool
  | Json.obj _ => true
  | _ => false

/-- A decoded JSON list whose every element satisfies `p`. -/
def isListOf (p : Json → Bool) : Json → Bool
  | Json.arr elems => elems.all p
  | _ => false

/-- The required field `k` is present on the object `j` with a value
satisfying `p` (pydantic ignores extra keys, so only the listed fields are
checked). -/
def fieldIs (j : Json) (k : String) (p : Json → Bool) : Bool :=
  match j with
  | Json.obj entries =>
    match entries.lookup k with
    | some v => p v
    | none => false
  | _ => false

/-- Validation of one `SectionBreakdown` element (models.py lines 15-22):
every field required, `psychologicalPrinciples` a list of strings. -/
def validSection (j : Json) : Bool :=
  fieldIs j "sectionName" isStrJson &&
  fieldIs j "triggerEmotionalState" isStrJson &&
  fieldIs j "originalQuote" isStrJson &&
  fieldIs j "rewrittenVersion" isStrJson &&
  fieldIs j "sceneDescription" isStrJson &&
  fieldIs j "psychologicalPrinciples" (isListOf isStrJson) &&
  fieldIs j "timestamp" isStrJson

/-- Validation of a `SutherlandAlchemy` block (models.py lines 24-27):
`explanation`, `valueReframing` and `identityShifts` are all required, so
the `.get(..., {})` default never validates. -/
def validSutherland (j : Json) : Bool :=
  fieldIs j "explanation" isStrJson &&
  fieldIs j "valueReframing" (isListOf isDictJson) &&
  fieldIs j "identityShifts" (isListOf isStrJson)

/-- Validation of a `HormoziValueStack` block (models.py lines 29-33):
all four fields required, so the `.get(..., {})` default never validates. -/
def validHormozi (j : Json) : Bool :=
  fieldIs j "coreOffer" isStrJson &&
  fieldIs j "valueElements" (isListOf isDictJson) &&
  fieldIs j "totalStack" isDictJson &&
  fieldIs j "grandSlamElements" (isListOf isStrJson)

/-- Validation of the `confidence: float` field: a decoded JSON number is
accepted.  Numeric strings (coerced by pydantic) and booleans (whose
acceptance differs between pydantic major versions) are corners no claim
exercises and are not modelled. -/
def validConfidence : Json → Bool
  | Json.num _ => true
  | _ => false

/-- The assembly step of `generate_tailored_script` (lines 420-440):
extract fields from the parsed structure with the source's defaults,
compute metadata, then construct `AITailoringData`, whose pydantic
response models (models.py lines 15-43) validate the field values —
including the defaults.  `none` models any exception inside the `try`
block: an `AttributeError` from a non-dict parse result or a non-string
`tailoredScript` (whose `.split()` raises first, in `calculate_metadata`),
or the `ValidationError` raised by the construction when a field value
fails its annotation — in particular when a nested block was defaulted to
the empty dict, which lacks that block's required fields. -/
def assembleTailoringData (parsed : Json) (originalTranscript : String)
    (pt : Nat) : Option AITailoringData := do
  let scriptJ ← pyDictGet parsed "tailoredScript" (Json.str "")
  let script ←
    match scriptJ with
    | Json.str s => some s
    | _ => none
  let md := calculate_metadata script originalTranscript pt
  let conf ← pyDictGet parsed "confidence" (Json.num "0.8")
  let sb ← pyDictGet parsed "sectionBreakdown" (Json.arr [])
  let sa ← pyDictGet parsed "sutherlandAlchemy" (Json.obj [])
  let hv ← pyDictGet parsed "hormoziValueStack" (Json.obj [])
  if validConfidence conf && isListOf validSection sb &&
      validSutherland sa && validHormozi hv then
    some
      { tailoredScript := script,
        confidence := conf,
        processingTime := pt,
        wordCount := md.wordCount,
        estimatedReadTime := md.estimatedReadTime,
        sectionBreakdown := sb,
        sutherlandAlchemy := sa,
        hormoziValueStack := hv }
  else none

/-- `generate_tailored_script` (lines 407-465), as a function of the LLM
call's outcome: any exception inside the `try` block is converted to the
error-shaped result.  The text of an `AttributeError` or `ValidationError`
raised during assembly is not modelled (no claim depends on it); the
error-shaped record itself is faithful. -/
def generate_tailored_script (llm : LlmCallResult) (originalTranscript : String)
    (pt : Nat) : AITailoringData :=
  match call_openai_api llm with
  | Except.error e => errorTailoringData e pt
  | Except.ok content =>
    match assembleTailoringData (parse_ai_response content) originalTranscript pt with
    | some d => d
    | none => errorTailoringData "exception text not modelled" pt

/-! ## `main.py`: platform detection, retry loop, transcription endpoint -/

structure PlatformInfo where
  platform : String
  supported : Bool
  reliability : String
  recommendation : String

/-- `_detect_platform` (lines 55-112). -/
def _detect_platform (url : String) : PlatformInfo :=
  let u := toLowerStr url
  if containsSubstr u "youtube.com" || containsSubstr u "youtu.be" then
    { platform := "YouTube", supported := true, reliability := "high",
      recommendation := "Fully supported and reliable" }
  else if containsSubstr u "tiktok.com" || containsSubstr u "m.tiktok.com" then
    { platform := "TikTok", supported := true, reliability := "low",
      recommendation := "May fail due to rate limiting. Consider retry logic or alternative methods." }
  else if containsSubstr u "x.com" || containsSubstr u "twitter.com" then
    { platform := "X (Twitter)", supported := true, reliability := "low",
      recommendation := "May fail due to access restrictions. Consider alternative methods." }
  else if containsSubstr u "instagram.com" then
    { platform := "Instagram", supported := true, reliability := "medium",
      recommendation := "Supported but may have limitations" }
  else if containsSubstr u "vimeo.com" then
    { platform := "Vimeo", supported := false, reliability := "none",
      recommendation := "Not supported by Supadata. Use alternative transcription service." }
  else if containsSubstr u "twitch.tv" then
    { platform := "Twitch", supported := false, reliability := "none",
      recommendation := "Not supported by Supadata. Use alternative transcription service." }
  else
    { platform := "Unknown", supported := false, reliability := "unknown",
      recommendation := "Platform not recognized. Check if URL is valid and supported." }

/-- One call to `supadata.transcript`: inline content, an async job id, a
typed `SupadataError` (message carries an HTTP-status-like text), or an
untyped exception. -/
inductive ProviderResult where
  | content (lang transcriptText : String)
  | queued (jobId : String)
  | supadataError (msg : String)
  | unexpectedError (msg : String)

/-- The result dict assembled per URL by `_transcribe_with_retry` /
`transcribe`; each variant of the source dict populates a subset of keys. -/
structure TranscriptionOutcome where
  url : String
  platform : String
  status : String
  language : Option String := none
  transcript : Option String := none
  jobId : Option String := none
  errorCode : Option String := none
  errorMessage : Option String := none
  errorDetails : Option String := none
  recommendation : Option String := none

def notSupportedOutcome (url : String) (p : PlatformInfo) : TranscriptionOutcome :=
  { url := url, platform := p.platform, status := "error",
    errorCode := some "PLATFORM_NOT_SUPPORTED",
    errorMessage := some ("Platform " ++ p.platform ++ " is not supported by Supadata"),
    errorDetails := some p.recommendation }

def unknownErrorOutcome (url : String) (p : PlatformInfo) : TranscriptionOutcome :=
  { url := url, platform := p.platform, status := "error",
    errorCode := some "UNKNOWN_ERROR",
    errorMessage := some ("Unknown error occurred during " ++ p.platform ++ " transcription"),
    errorDetails := some "Maximum retries exceeded",
    recommendation := some p.recommendation }

/-- The `for attempt in range(max_retries)` loop of `_transcribe_with_retry`
(lines 151-256).  The provider call of attempt `i` (0-indexed) is
`oracle i`; the returned list collects the `asyncio.sleep` durations in
seconds, in order.  `fuel` counts the remaining iterations; running out of
fuel is the fall-through past the loop (lines 246-256). -/
def transcribeLoop (oracle : Nat → ProviderResult) (url : String) (p : PlatformInfo)
    (maxRetries : Nat) : Nat → Nat → TranscriptionOutcome × List Nat
  | _, 0 => (unknownErrorOutcome url p, [])
  | attempt, fuel + 1 =>
    match oracle attempt with
    | ProviderResult.content lang text =>
      ({ url := url, platform := p.platform, status := "success",
         language := some lang, transcript := some text }, [])
    | ProviderResult.queued jobId =>
      ({ url := url, platform := p.platform, status := "processing",
         jobId := some jobId }, [])
    | ProviderResult.supadataError msg =>
      if containsSubstr msg "status 429" then
        let wait := 2 ^ attempt * 5
        if attempt == maxRetries - 1 then
          ({ url := url, platform := p.platform, status := "error",
             errorCode := some "TRANSCRIPTION_FAILED",
             errorMessage := some ("Failed to transcribe " ++ p.platform ++ " video after "
               ++ toString maxRetries ++ " attempts: " ++ msg),
             errorDetails := some msg, recommendation := some p.recommendation }, [wait])
        else
          let next := transcribeLoop oracle url p maxRetries (attempt + 1) fuel
          (next.1, wait :: next.2)
      else if containsSubstr msg "status 400" || containsSubstr msg "status 500" then
        let wait := 2 ^ attempt * 2
        if attempt == maxRetries - 1 then
          ({ url := url, platform := p.platform, status := "error",
             errorCode := some "TRANSCRIPTION_FAILED",
             errorMessage := some ("Failed to transcribe " ++ p.platform ++ " video after "
               ++ toString maxRetries ++ " attempts: " ++ msg),
             errorDetails := some msg, recommendation := some p.recommendation }, [wait])
        else
          let next := transcribeLoop oracle url p maxRetries (attempt + 1) fuel
          (next.1, wait :: next.2)
      else
        ({ url := url, platform := p.platform, status := "error",
           errorCode := some "TRANSCRIPTION_ERROR",
           errorMessage := some ("Failed to transcribe " ++ p.platform ++ " video: " ++ msg),
           errorDetails := some msg, recommendation := some p.recommendation }, [])
    | ProviderResult.unexpectedError msg =>
      if attempt == maxRetries - 1 then
        ({ url := url, platform := p.platform, status := "error",
           errorCode := some "UNEXPECTED_ERROR",
           errorMessage := some ("Unexpected error transcribing " ++ p.platform
             ++ " video: " ++ msg),
           errorDetails := some msg, recommendation := some p.recommendation }, [])
      else
        let next := transcribeLoop oracle url p maxRetries (attempt + 1) fuel
        (next.1, 2 ^ attempt :: next.2)

/-- Default of the `max_retries` keyword parameter (line 114). -/
def defaultMaxRetries : Nat := 3

/-- `_transcribe_with_retry` (lines 114-256): gate on platform support,
raise the budget to at least 5 for "low"-reliability platforms, then run
the bounded retry loop.  `lang`, `text` and `mode` are passed to the
provider and do not affect control flow; the provider's behaviour is the
oracle. -/
def _transcribe_with_retry (oracle : Nat → ProviderResult) (url : String)
    (_lang : String) (_text : Bool) (_mode : String) (maxRetries : Nat) :
    TranscriptionOutcome × List Nat :=
  let p := _detect_platform url
  if !p.supported then (notSupportedOutcome url p, [])
  else
    let mr := if p.reliability == "low" then max maxRetries 5 else maxRetries
    transcribeLoop oracle url p mr 0 mr

/-- `_hash_url` (lines 51-53).  Modelled as the identity: the sha256 hex
digest serves only as an injective cache key and its arithmetic content is
irrelevant to every claim. -/
def _hash_url (url : String) : String := url

/-- `CACHE_TTL` (line 49), seconds. -/
def CACHE_TTL : Nat := 86400

structure CacheEntry where
  result : TranscriptionOutcome
  timestamp : Nat

/-- Lookup in the in-memory cache dict. -/
def lookupCache (k : String) : List (String × CacheEntry) → Option CacheEntry
  | [] => none
  | (k2, e) :: rest => if k = k2 then some e else lookupCache k rest

/-- `del CACHE[key]`: a dict holds at most one binding per key, so deletion
is modelled by dropping every binding of the key. -/
def removeCache (k : String) (c : List (String × CacheEntry)) :
    List (String × CacheEntry) :=
  c.filter (fun kv => !(kv.1 == k))

/-- `CACHE[key] = entry`. -/
def setCache (k : String) (v : CacheEntry) : List (String × CacheEntry) →
    List (String × CacheEntry)
  | [] => [(k, v)]
  | (k2, e) :: rest => if k = k2 then (k2, v) :: rest else (k2, e) :: setCache k v rest

/-- Result of one request to the `/transcribe` endpoint, with the cache it
leaves behind and the list of URLs for which a fresh provider fetch was
performed. -/
structure TranscribeRun where
  results : List TranscriptionOutcome
  cache : List (String × CacheEntry)
  fetched : List String

/-- The per-URL loop of the `/transcribe` handler (lines 266-295): serve a
cached unexpired entry; evict an expired one; otherwise fetch with retry
and store the result only when its status is "success" or "processing".
`now` is the single `time.time()` sample taken at request start. -/
def transcribeUrls (oracle : String → Nat → ProviderResult) (lang : String)
    (text : Bool) (mode : String) (now : Nat) :
    List String → List (String × CacheEntry) → TranscribeRun
  | [], cache => { results := [], cache := cache, fetched := [] }
  | url :: rest, cache =>
    let key := _hash_url url
    let afterFetch := fun (cache1 : List (String × CacheEntry)) =>
      let result := (_transcribe_with_retry (oracle url) url lang text mode
        defaultMaxRetries).1
      let cache2 :=
        if result.status == "success" || result.status == "processing" then
          setCache key { result := result, timestamp := now } cache1
        else cache1
      let r := transcribeUrls oracle lang text mode now rest cache2
      { results := result :: r.results, cache := r.cache, fetched := url :: r.fetched }
    match lookupCache key cache with
    | some entry =>
      if now - entry.timestamp < CACHE_TTL then
        let r := transcribeUrls oracle lang text mode now rest cache
        { results := entry.result :: r.results, cache := r.cache, fetched := r.fetched }
      else afterFetch (removeCache key cache)
    | none => afterFetch cache

/-! ## Derived observations used by the claims -/

/-- Field access on a decoded JSON object. -/
def jGet (j : Json) (k : String) : Option Json :=
  match j with
  | Json.obj entries => entries.lookup k
  | _ => none

/-- Modelled from the spec: "a value conforming to the TailoringResult-shaped
schema" — an object carrying the primary text field, a numeric confidence,
a list-valued section breakdown and the two object-valued nested blocks of
the fixed output schema. -/
def conformsToTailoringSchema (j : Json) : Bool :=
  (match jGet j "tailoredScript" with | some (Json.str _) => true | _ => false) &&
  (match jGet j "confidence" with | some (Json.num _) => true | _ => false) &&
  (match jGet j "sectionBreakdown" with | some (Json.arr _) => true | _ => false) &&
  (match jGet j "sutherlandAlchemy" with | some (Json.obj _) => true | _ => false) &&
  (match jGet j "hormoziValueStack" with | some (Json.obj _) => true | _ => false)

/-- A provider call outcome that reports a rate-limit condition: a
`SupadataError` whose message carries "status 429". -/
def isRateLimit429 (r : ProviderResult) : Bool :=
  match r with
  | ProviderResult.supadataError m => containsSubstr m "status 429"
  | _ => false

/-- A response truncated in the middle of the primary field's string value. -/
def c3Input : String := "\x7b\"tailoredScript\": \"Hello. wor"

/-- A 150-word script, witnessing the read-time boundary. -/
def words150 : String := String.intercalate " " (List.replicate 150 "w")

/-- A 149-word script, witnessing the read-time boundary. -/
def words149 : String := String.intercalate " " (List.replicate 149 "w")

/-- A concrete supported URL used to witness the cache behaviour. -/
def url10w : String := "https://youtube.com/watch?v=1"

/-- A provider that always fails with a non-retryable error. -/
def oracle10w : String → Nat → ProviderResult :=
  fun _ _ => ProviderResult.supadataError "boom"

/-- A minimal block passing `SutherlandAlchemy` validation. -/
def saValid : Json :=
  Json.obj [("explanation", Json.str "x"), ("valueReframing", Json.arr []),
            ("identityShifts", Json.arr [])]

/-- A minimal block passing `HormoziValueStack` validation. -/
def hvValid : Json :=
  Json.obj [("coreOffer", Json.str "x"), ("valueElements", Json.arr []),
            ("totalStack", Json.obj []), ("grandSlamElements", Json.arr [])]

/-! ## Theorems -/

/-- Claim C1: for every input string to `parse_ai_response` whose
fence-stripped text is valid JSON (whether or not it was wrapped in
leading/trailing code-fence markers), the engine returns exactly the
structure a direct JSON decode of that fence-stripped text produces,
unchanged, through the direct path — no repair step is applied. -/
theorem c1_valid_json_unchanged (s : String) (v : Json)
    (h : jsonDecode (cleanFences s) = some v) :
    parseAiResponseTagged s = (v, ParsePath.direct) := by
  simp only [parseAiResponseTagged, h]

/-- Witness for C1 at a concrete fenced valid-JSON input. -/
theorem c1_valid_json_unchanged_witness :
    jsonDecode (cleanFences "```json\n\x7b\"confidence\": 1\x7d\n```") =
      some (Json.obj [("confidence", Json.num "1")]) ∧
    parseAiResponseTagged "```json\n\x7b\"confidence\": 1\x7d\n```" =
      (Json.obj [("confidence", Json.num "1")], ParsePath.direct) :=
  ⟨rfl, c1_valid_json_unchanged _ _ rfl⟩

/-- Claim C2 counterexample: the input `{}` contains no
`"tailoredScript"` key anywhere, yet the engine returns the decoded empty
object (the direct decode succeeds), not the fixed fallback. -/
theorem c2_counterexample :
    containsSubstr (cleanFences "\x7b\x7d") "\"tailoredScript\"" = false ∧
    parse_ai_response "\x7b\x7d" = Json.obj [] ∧
    Json.obj [] ≠ fallbackJson :=
  ⟨rfl, rfl, by simp [fallbackJson]⟩

/-- Claim C2 (amended): for every input whose fence-stripped text fails
the direct JSON decode and does not contain the primary field's key, the
engine returns the fixed fallback structure, whose confidence is 0.1 and
whose list-valued fields are empty. -/
theorem c2_missing_key_fallback (s : String)
    (hdec : jsonDecode (cleanFences s) = none)
    (hkey : containsSubstr (cleanFences s) "\"tailoredScript\"" = false) :
    parseAiResponseTagged s = (fallbackJson, ParsePath.fallback) ∧
    jGet fallbackJson "confidence" = some (Json.num "0.1") ∧
    jGet fallbackJson "sectionBreakdown" = some (Json.arr []) := by
  refine ⟨?_, rfl, rfl⟩
  simp only [parseAiResponseTagged, hdec, hkey, Bool.false_eq_true, if_false]

/-- Witness for the amended C2 at a concrete undecodable, key-free input. -/
theorem c2_missing_key_fallback_witness :
    parseAiResponseTagged "not json at all" = (fallbackJson, ParsePath.fallback) ∧
    jGet fallbackJson "confidence" = some (Json.num "0.1") ∧
    jGet fallbackJson "sectionBreakdown" = some (Json.arr []) :=
  c2_missing_key_fallback "not json at all" rfl rfl

/-- Claim C4 counterexample: on the input `[1, 2]` the engine raises
nothing but returns the decoded two-element array verbatim, which does not
conform to the TailoringResult-shaped schema. -/
theorem c4_counterexample :
    parse_ai_response "[1, 2]" = Json.arr [Json.num "1", Json.num "2"] ∧
    conformsToTailoringSchema (parse_ai_response "[1, 2]") = false :=
  ⟨rfl, rfl⟩

/-- Claim C4 (amended): `parse_ai_response` is total (the model of "never
raises") and every result is one of exactly three honestly-obtained
values: the direct decode of the fence-stripped text, the decode of the
repaired text, or the fixed fallback — and only the fallback is guaranteed
to conform to the TailoringResult-shaped schema; decoded values are
returned as-is, schema defaulting being the caller's job. -/
theorem c4_total_and_three_outcomes (s : String) :
    (∃ v, jsonDecode (cleanFences s) = some v ∧ parse_ai_response s = v) ∨
    (∃ v, jsonDecode (_fix_common_json_issues (cleanFences s)) = some v ∧
      parse_ai_response s = v) ∨
    (parse_ai_response s = fallbackJson ∧
      conformsToTailoringSchema fallbackJson = true) := by
  cases hd : jsonDecode (cleanFences s) with
  | some v =>
    exact Or.inl ⟨v, rfl, by simp only [parse_ai_response, parseAiResponseTagged, hd]⟩
  | none =>
    cases hk : containsSubstr (cleanFences s) "\"tailoredScript\"" with
    | true =>
      cases hf : jsonDecode (_fix_common_json_issues (cleanFences s)) with
      | some v =>
        refine Or.inr (Or.inl ⟨v, rfl, ?_⟩)
        simp only [parse_ai_response, parseAiResponseTagged, hd, hk, if_true, hf]
      | none =>
        refine Or.inr (Or.inr ⟨?_, rfl⟩)
        simp only [parse_ai_response, parseAiResponseTagged, hd, hk, if_true, hf]
    | false =>
      refine Or.inr (Or.inr ⟨?_, rfl⟩)
      simp only [parse_ai_response, parseAiResponseTagged, hd, hk,
        Bool.false_eq_true, if_false]

/-- Trailing whitespace stripping leaves a string ending in a quote
unchanged. -/
theorem pyRstrip_append_quote (t : String) : pyRstrip (t ++ "\"") = t ++ "\"" := by
  unfold pyRstrip
  have h : (t ++ "\"").data = t.data ++ ['"'] := rfl
  rw [h]
  rw [List.reverse_append]
  rw [show (['"'].reverse ++ t.data.reverse) = '"' :: t.data.reverse from rfl]
  rw [show List.dropWhile isPyWs ('"' :: t.data.reverse) = '"' :: t.data.reverse from rfl]
  rw [show ('"' :: t.data.reverse).reverse = t.data.reverse.reverse ++ ['"'] by
    simp [List.reverse_cons]]
  rw [List.reverse_reverse]
  exact congrArg String.mk h.symm

/-- A repaired text ending in the appended closing quote never ends with a
closing brace, so `_fix_unterminated_strings` always goes on to
`_complete_json_structure` in the truncated case. -/
theorem endsWith_quote_not_brace (t : String) :
    pyEndsWith (pyRstrip (t ++ "\"")) "\x7d" = false := by
  rw [pyRstrip_append_quote]
  unfold pyEndsWith
  rw [show (t ++ "\"").data = t.data ++ ['"'] from rfl]
  rw [List.reverse_append]
  rfl

/-- `strTake` composes like `List.take`. -/
theorem strTake_strTake (m n : Nat) (s : String) :
    strTake m (strTake n s) = strTake (min m n) s := by
  unfold strTake
  rw [show (String.mk (s.data.take n)).data = s.data.take n from rfl]
  rw [List.take_take]

/-- Claim C3 (amended): whenever the character scan of
`_fix_unterminated_strings` ends still inside a string, the repair output
is `_complete_json_structure` applied to a PREFIX of the input text cut at
or before one past the last structurally valid position, with a closing
quote appended.  The sentence-punctuation search runs inside that prefix —
which ends before the truncated string's opening quote — not up to the
point of truncation, so the truncated primary value's content is discarded
rather than kept; the result is not in general parseable (see the
counterexample, where the engine falls back). -/
theorem c3_truncation_repair_prefix (s : String)
    (h : (runScan s).inString = true) :
    ∃ k, k ≤ (runScan s).lastValidPos + 1 ∧
      _fix_unterminated_strings s =
        _complete_json_structure (strTake k s ++ "\"") := by
  simp only [_fix_unterminated_strings, h, if_true]
  split
  · refine ⟨min ((max (max (pyRfind (strTake ((runScan s).lastValidPos + 1) s) '.')
      (pyRfind (strTake ((runScan s).lastValidPos + 1) s) '!'))
      (pyRfind (strTake ((runScan s).lastValidPos + 1) s) '?')).toNat + 1)
      ((runScan s).lastValidPos + 1), Nat.min_le_right _ _, ?_⟩
    rw [← strTake_strTake]
    rw [endsWith_quote_not_brace]
    rfl
  · refine ⟨(runScan s).lastValidPos + 1, Nat.le_refl _, ?_⟩
    rw [endsWith_quote_not_brace]
    rfl

set_option maxRecDepth 8192

/-- Claim C3 counterexample: the input is truncated mid-string (the scan
ends inside a string) and contains the primary key; the original content
holds sentence punctuation ("Hello.") before the truncation point, yet the
repair truncates at the field's colon — discarding the value entirely —
producing a text that still fails to parse both after string repair and
after brace balancing, so the engine returns the fallback, whose primary
field's value is not a prefix of the original content "Hello. wor". -/
theorem c3_counterexample :
    (runScan c3Input).inString = true ∧
    containsSubstr c3Input "\"tailoredScript\"" = true ∧
    _fix_unterminated_strings c3Input =
      "\x7b\"tailoredScript\":\"," ++ completionBlock ∧
    jsonDecode (_fix_common_json_issues c3Input) = none ∧
    parse_ai_response c3Input = fallbackJson ∧
    jGet fallbackJson "tailoredScript" =
      some (Json.str "Error: Could not parse AI response. Please try again.") ∧
    pyStartsWith "Hello. wor"
      "Error: Could not parse AI response. Please try again." = false :=
  ⟨rfl, rfl, rfl, rfl, rfl, rfl, rfl⟩

/-- Witness for the amended C3 at the concrete truncated input. -/
theorem c3_truncation_repair_prefix_witness :
    ∃ k, k ≤ (runScan c3Input).lastValidPos + 1 ∧
      _fix_unterminated_strings c3Input =
        _complete_json_structure (strTake k c3Input ++ "\"") :=
  c3_truncation_repair_prefix c3Input rfl

/-- `dict.get` on an object always yields a value: the stored one or the
default. -/
theorem pyDictGet_obj (entries : List (String × Json)) (k : String) (d : Json) :
    pyDictGet (Json.obj entries) k d = some ((entries.lookup k).getD d) := by
  simp only [pyDictGet]
  cases entries.lookup k <;> rfl

/-- Claim C7 counterexample: at the parsed structure `{}` every optional
field is structurally absent, but the nested-block defaults (empty dicts)
fail the response models' required-field validation, so assembly raises
and the pipeline substitutes the error-shaped result — confidence 0.0, an
"Error generating script" text, and placeholder nested blocks rather than
empty values.  And on a parsed structure whose nested blocks are present
and valid, an absent confidence is defaulted to 0.8, not zero. -/
theorem c7_counterexample :
    assembleTailoringData (Json.obj []) "" 0 = none ∧
    (generate_tailored_script (LlmCallResult.ok "\x7b\x7d") "" 0).confidence =
      Json.num "0.0" ∧
    pyStartsWith
      (generate_tailored_script (LlmCallResult.ok "\x7b\x7d") "" 0).tailoredScript
      "Error generating script" = true ∧
    (generate_tailored_script (LlmCallResult.ok "\x7b\x7d") "" 0).sutherlandAlchemy ≠
      Json.obj [] ∧
    (assembleTailoringData
        (Json.obj [("sutherlandAlchemy", saValid), ("hormoziValueStack", hvValid)])
        "" 0).map AITailoringData.confidence = some (Json.num "0.8") ∧
    Json.num "0.8" ≠ Json.num "0.0" := by
  refine ⟨rfl, rfl, rfl, ?_, rfl, ?_⟩
  · intro h
    rw [show (generate_tailored_script (LlmCallResult.ok "\x7b\x7d") "" 0).sutherlandAlchemy =
        Json.obj [("explanation", Json.str "Error occurred during processing"),
                  ("valueReframing", Json.arr []),
                  ("identityShifts", Json.arr [])] from rfl] at h
    simp at h
  · intro h
    injection h with h2
    exact absurd h2 (by decide)

/-- Claim C7 (amended): absent scalar and list fields are defaulted during
assembly — the script to "", confidence to 0.8 (the source's default, not
zero), the section list to an empty sequence — and those defaults pass
validation when the nested blocks are present and valid; but an absent
nested block is defaulted to the empty dict, which fails the response
model's required-field validation, so assembly DOES have an error path:
with `sutherlandAlchemy` absent the construction always fails and the
pipeline returns the error result instead of a defaulted structure. -/
theorem c7_defaults_and_validation (entries : List (String × Json))
    (transcript : String) (pt : Nat) (sa hv : Json)
    (hs : entries.lookup "tailoredScript" = none)
    (hc : entries.lookup "confidence" = none)
    (hb : entries.lookup "sectionBreakdown" = none)
    (hsa : entries.lookup "sutherlandAlchemy" = some sa)
    (hhv : entries.lookup "hormoziValueStack" = some hv)
    (hva : validSutherland sa = true)
    (hvh : validHormozi hv = true) :
    assembleTailoringData (Json.obj entries) transcript pt =
      some { tailoredScript := "", confidence := Json.num "0.8",
             processingTime := pt, wordCount := 0, estimatedReadTime := "0s",
             sectionBreakdown := Json.arr [], sutherlandAlchemy := sa,
             hormoziValueStack := hv } ∧
    (∀ (entries2 : List (String × Json)) (t2 : String) (pt2 : Nat),
      entries2.lookup "sutherlandAlchemy" = none →
      assembleTailoringData (Json.obj entries2) t2 pt2 = none) := by
  constructor
  · simp [assembleTailoringData, pyDictGet, hs, hc, hb, hsa, hhv, hva, hvh]
    exact ⟨⟨rfl, rfl⟩, rfl, rfl⟩
  · intro entries2 t2 pt2 h2
    cases hts : entries2.lookup "tailoredScript" with
    | none =>
      simp [assembleTailoringData, pyDictGet_obj, hts, h2, validSutherland, fieldIs]
    | some v =>
      cases v <;>
        simp [assembleTailoringData, pyDictGet_obj, hts, h2, validSutherland, fieldIs]

/-- Witness for the amended C7 at a concrete parsed object with valid
nested blocks and all other fields absent. -/
theorem c7_defaults_and_validation_witness :
    (assembleTailoringData
        (Json.obj [("sutherlandAlchemy", saValid), ("hormoziValueStack", hvValid)])
        "t" 3 =
      some { tailoredScript := "", confidence := Json.num "0.8",
             processingTime := 3, wordCount := 0, estimatedReadTime := "0s",
             sectionBreakdown := Json.arr [], sutherlandAlchemy := saValid,
             hormoziValueStack := hvValid }) ∧
    (∀ (entries2 : List (String × Json)) (t2 : String) (pt2 : Nat),
      entries2.lookup "sutherlandAlchemy" = none →
      assembleTailoringData (Json.obj entries2) t2 pt2 = none) :=
  c7_defaults_and_validation
    [("sutherlandAlchemy", saValid), ("hormoziValueStack", hvValid)]
    "t" 3 saValid hvValid rfl rfl rfl rfl rfl rfl rfl

/-- Claim C8: the metadata calculator sets `wordCount` to the number of
whitespace-separated tokens; read time is rendered at 150 words/minute —
truncated integer seconds with an "s" suffix below 150 words (under one
minute), minutes to one decimal place with an "m" suffix otherwise — so
exactly 150 words yields "1.0m" and 149 words yields "59s", below 60
seconds. -/
theorem c8_read_time_metadata (s1 s2 orig : String) (pt : Nat)
    (h1 : (pySplitWs s1).length = 150)
    (h2 : (pySplitWs s2).length = 149) :
    (∀ s : String, (calculate_metadata s orig pt).wordCount = (pySplitWs s).length) ∧
    (∀ s : String, (pySplitWs s).length < 150 →
      (calculate_metadata s orig pt).estimatedReadTime =
        toString ((pySplitWs s).length * 60 / 150) ++ "s") ∧
    (∀ s : String, 150 ≤ (pySplitWs s).length →
      (calculate_metadata s orig pt).estimatedReadTime =
        toString ((2 * (pySplitWs s).length + 15) / 30 / 10) ++ "." ++
          toString ((2 * (pySplitWs s).length + 15) / 30 % 10) ++ "m") ∧
    (calculate_metadata s1 orig pt).estimatedReadTime = "1.0m" ∧
    (calculate_metadata s2 orig pt).estimatedReadTime = "59s" ∧
    149 * 60 / 150 < 60 := by
  refine ⟨fun s => rfl, ?_, ?_, ?_, ?_, by norm_num⟩
  · intro s hlt
    simp only [calculate_metadata, renderReadTime, if_pos hlt]
  · intro s hge
    simp only [calculate_metadata, renderReadTime]
    rw [if_neg (by omega)]
  · rw [show (calculate_metadata s1 orig pt).estimatedReadTime =
      renderReadTime (pySplitWs s1).length from rfl, h1]
    rfl
  · rw [show (calculate_metadata s2 orig pt).estimatedReadTime =
      renderReadTime (pySplitWs s2).length from rfl, h2]
    rfl

/-- Witness for C8 at concrete 150- and 149-word scripts. -/
theorem c8_read_time_metadata_witness :
    (calculate_metadata words150 "orig" 1).estimatedReadTime = "1.0m" ∧
    (calculate_metadata words149 "orig" 1).estimatedReadTime = "59s" := by
  have h := c8_read_time_metadata words150 words149 "orig" 1 rfl rfl
  exact ⟨h.2.2.2.1, h.2.2.2.2.1⟩

/-- Claim C9: when the LLM call exceeds the configured 60-second budget,
the pipeline returns the fully populated error-shaped result: confidence
exactly 0.0, a tailored script beginning with the error marker, built by
the timeout message flowing through the exception handler — and
`generate_tailored_script` is total, so no exception escapes. -/
theorem c9_timeout_error_result (transcript : String) (pt : Nat) :
    (generate_tailored_script LlmCallResult.timeout transcript pt).confidence =
      Json.num "0.0" ∧
    pyStartsWith
      (generate_tailored_script LlmCallResult.timeout transcript pt).tailoredScript
      "Error" = true ∧
    generate_tailored_script LlmCallResult.timeout transcript pt =
      errorTailoringData
        ("API call timed out after " ++ toString REQUEST_TIMEOUT ++ " seconds") pt :=
  ⟨rfl, rfl, rfl⟩

/-- Claim C5: for a URL of a supported "low"-reliability platform, the
retry loop runs on a budget raised to 5; when every attempt hits a
rate-limit (status 429) provider error, the loop sleeps
`5 * 2^(n-1)` seconds after the 1-indexed attempt `n` — the recorded
backoff trace is exactly [5, 10, 20, 40, 80] — retrying until the final
allowed attempt, after which it returns an error outcome with code
TRANSCRIPTION_FAILED. -/
theorem c5_low_reliability_rate_limit (oracle : Nat → ProviderResult)
    (url lang mode : String) (text : Bool)
    (hrel : (_detect_platform url).reliability = "low")
    (hsup : (_detect_platform url).supported = true)
    (h429 : ∀ n, n < 5 → isRateLimit429 (oracle n) = true) :
    (_transcribe_with_retry oracle url lang text mode defaultMaxRetries).2 =
      [5, 10, 20, 40, 80] ∧
    (_transcribe_with_retry oracle url lang text mode defaultMaxRetries).1.status =
      "error" ∧
    (_transcribe_with_retry oracle url lang text mode defaultMaxRetries).1.errorCode =
      some "TRANSCRIPTION_FAILED" := by
  have hmr : _transcribe_with_retry oracle url lang text mode defaultMaxRetries =
      transcribeLoop oracle url (_detect_platform url) 5 0 5 := by
    simp only [_transcribe_with_retry, hsup, Bool.not_true, Bool.false_eq_true,
      if_false, hrel]
    rfl
  have step : ∀ n, n < 5 → ∃ m, oracle n = ProviderResult.supadataError m ∧
      containsSubstr m "status 429" = true := by
    intro n hn
    have h := h429 n hn
    cases ho : oracle n with
    | supadataError m =>
      refine ⟨m, rfl, ?_⟩
      rw [ho] at h
      exact h
    | content l t => rw [ho] at h; simp [isRateLimit429] at h
    | queued j => rw [ho] at h; simp [isRateLimit429] at h
    | unexpectedError m => rw [ho] at h; simp [isRateLimit429] at h
  obtain ⟨m0, ho0, hc0⟩ := step 0 (by omega)
  obtain ⟨m1, ho1, hc1⟩ := step 1 (by omega)
  obtain ⟨m2, ho2, hc2⟩ := step 2 (by omega)
  obtain ⟨m3, ho3, hc3⟩ := step 3 (by omega)
  obtain ⟨m4, ho4, hc4⟩ := step 4 (by omega)
  rw [hmr]
  simp only [transcribeLoop, ho0, hc0, ho1, hc1, ho2, hc2, ho3, hc3, ho4, hc4,
    if_true]
  norm_num

/-- Witness for C5 on a concrete TikTok URL with a constantly rate-limited
provider. -/
theorem c5_low_reliability_rate_limit_witness :
    (_transcribe_with_retry (fun _ => ProviderResult.supadataError "status 429")
      "https://www.tiktok.com/@u/video/1" "en" true "auto" defaultMaxRetries).2 =
      [5, 10, 20, 40, 80] ∧
    (_transcribe_with_retry (fun _ => ProviderResult.supadataError "status 429")
      "https://www.tiktok.com/@u/video/1" "en" true "auto" defaultMaxRetries).1.status =
      "error" ∧
    (_transcribe_with_retry (fun _ => ProviderResult.supadataError "status 429")
      "https://www.tiktok.com/@u/video/1" "en" true "auto"
      defaultMaxRetries).1.errorCode = some "TRANSCRIPTION_FAILED" :=
  c5_low_reliability_rate_limit (fun _ => ProviderResult.supadataError "status 429")
    "https://www.tiktok.com/@u/video/1" "en" "auto" true rfl rfl (fun _ _ => rfl)

/-- Every iteration of the retry loop either returns an outcome or recurs
with one less remaining attempt, and the final attempt always returns, so
the out-of-fuel fall-through (the post-loop UNKNOWN_ERROR dict) is never
produced while at least one attempt remains. -/
theorem transcribeLoop_no_unknown (oracle : Nat → ProviderResult) (url : String)
    (p : PlatformInfo) (mr : Nat) :
    ∀ fuel attempt, attempt + fuel = mr → 1 ≤ fuel →
      (transcribeLoop oracle url p mr attempt fuel).1.errorCode ≠
        some "UNKNOWN_ERROR" := by
  intro fuel
  induction fuel with
  | zero => intro attempt _ h; omega
  | succ f ih =>
    intro attempt hsum _
    have hlast : f = 0 → (attempt == mr - 1) = true := by
      intro h0
      have : attempt = mr - 1 := by omega
      simp [this]
    cases ho : oracle attempt with
    | content l t => simp [transcribeLoop, ho]
    | queued j => simp [transcribeLoop, ho]
    | supadataError m =>
      simp only [transcribeLoop, ho]
      by_cases h1 : containsSubstr m "status 429" = true
      · simp only [h1, if_true]
        by_cases h2 : (attempt == mr - 1) = true
        · simp only [h2, if_true]
          decide
        · simp only [h2, Bool.false_eq_true, if_false]
          have hf : 1 ≤ f := by
            rcases Nat.eq_zero_or_pos f with h0 | h0
            · exact absurd (hlast h0) (by simpa using h2)
            · exact h0
          exact ih (attempt + 1) (by omega) hf
      · simp only [h1, Bool.false_eq_true, if_false]
        by_cases h3 : (containsSubstr m "status 400" ||
            containsSubstr m "status 500") = true
        · simp only [h3, if_true]
          by_cases h2 : (attempt == mr - 1) = true
          · simp only [h2, if_true]
            decide
          · simp only [h2, Bool.false_eq_true, if_false]
            have hf : 1 ≤ f := by
              rcases Nat.eq_zero_or_pos f with h0 | h0
              · exact absurd (hlast h0) (by simpa using h2)
              · exact h0
            exact ih (attempt + 1) (by omega) hf
        · simp only [h3, Bool.false_eq_true, if_false]
          decide
    | unexpectedError m =>
      simp only [transcribeLoop, ho]
      by_cases h2 : (attempt == mr - 1) = true
      · simp only [h2, if_true]
        decide
      · simp only [h2, Bool.false_eq_true, if_false]
        have hf : 1 ≤ f := by
          rcases Nat.eq_zero_or_pos f with h0 | h0
          · exact absurd (hlast h0) (by simpa using h2)
          · exact h0
        exact ih (attempt + 1) (by omega) hf

/-- Claim C6: with a retry budget of at least 1, `_transcribe_with_retry`
never returns the post-loop defensive UNKNOWN_ERROR fallback: every
iteration either returns an outcome or continues, and the final attempt
always returns. -/
theorem c6_fallback_unreachable (oracle : Nat → ProviderResult)
    (url lang mode : String) (text : Bool) (maxRetries : Nat)
    (h : 1 ≤ maxRetries) :
    (_transcribe_with_retry oracle url lang text mode maxRetries).1.errorCode ≠
      some "UNKNOWN_ERROR" := by
  unfold _transcribe_with_retry
  by_cases hs : (_detect_platform url).supported = true
  · simp only [hs, Bool.not_true, Bool.false_eq_true, if_false]
    by_cases hl : ((_detect_platform url).reliability == "low") = true
    · simp only [hl, if_true]
      exact transcribeLoop_no_unknown oracle url (_detect_platform url)
        (max maxRetries 5) (max maxRetries 5) 0 (by omega) (by omega)
    · simp only [hl, Bool.false_eq_true, if_false]
      exact transcribeLoop_no_unknown oracle url (_detect_platform url)
        maxRetries maxRetries 0 (by omega) h
  · simp only [Bool.not_eq_true] at hs
    simp only [hs, Bool.not_false, if_true]
    intro hq
    exact absurd (Option.some.inj hq) (by decide)

/-- Witness for C6 at a concrete URL, oracle and budget. -/
theorem c6_fallback_unreachable_witness :
    (_transcribe_with_retry (fun _ => ProviderResult.content "en" "hello")
      "https://youtube.com/watch?v=1" "en" true "auto" 3).1.errorCode ≠
      some "UNKNOWN_ERROR" :=
  c6_fallback_unreachable (fun _ => ProviderResult.content "en" "hello")
    "https://youtube.com/watch?v=1" "en" "auto" true 3 (by decide)

/-- Deleting a key removes its binding. -/
theorem lookupCache_removeCache_self (key : String) (c : List (String × CacheEntry)) :
    lookupCache key (removeCache key c) = none := by
  induction c with
  | nil => rfl
  | cons kv rest ih =>
    obtain ⟨k2, e2⟩ := kv
    unfold removeCache at ih ⊢
    rw [List.filter_cons]
    by_cases h : k2 = key
    · rw [show (!((k2, e2).1 == key)) = false by simp [h]]
      simpa using ih
    · rw [show (!((k2, e2).1 == key)) = true by simp [h]]
      simp only [if_true]
      show lookupCache key ((k2, e2) :: List.filter _ rest) = none
      simp only [lookupCache]
      rw [if_neg (fun hh => h hh.symm)]
      exact ih

/-- Deleting a key leaves other keys untouched. -/
theorem lookupCache_removeCache_ne (k key : String) (hk : k ≠ key)
    (c : List (String × CacheEntry)) :
    lookupCache k (removeCache key c) = lookupCache k c := by
  induction c with
  | nil => rfl
  | cons kv rest ih =>
    obtain ⟨k2, e2⟩ := kv
    unfold removeCache at ih ⊢
    rw [List.filter_cons]
    by_cases h : k2 = key
    · rw [show (!((k2, e2).1 == key)) = false by simp [h]]
      simp only [Bool.false_eq_true, if_false]
      rw [ih]
      show lookupCache k rest = lookupCache k ((k2, e2) :: rest)
      simp only [lookupCache]
      rw [if_neg (fun hh => hk (hh.trans h))]
    · rw [show (!((k2, e2).1 == key)) = true by simp [h]]
      simp only [if_true]
      show lookupCache k ((k2, e2) :: List.filter _ rest) = _
      simp only [lookupCache]
      by_cases h2 : k = k2
      · rw [if_pos h2, if_pos h2]
      · rw [if_neg h2, if_neg h2]
        exact ih

/-- Storing under a key makes it the looked-up value. -/
theorem lookupCache_setCache_self (key : String) (v : CacheEntry)
    (c : List (String × CacheEntry)) :
    lookupCache key (setCache key v c) = some v := by
  induction c with
  | nil => simp [setCache, lookupCache]
  | cons kv rest ih =>
    obtain ⟨k2, e2⟩ := kv
    simp only [setCache]
    by_cases h : key = k2
    · rw [if_pos h]
      simp only [lookupCache]
      rw [if_pos h]
    · rw [if_neg h]
      simp only [lookupCache]
      rw [if_neg h]
      exact ih

/-- Storing under a key leaves other keys untouched. -/
theorem lookupCache_setCache_ne (k key : String) (hk : k ≠ key) (v : CacheEntry)
    (c : List (String × CacheEntry)) :
    lookupCache k (setCache key v c) = lookupCache k c := by
  induction c with
  | nil =>
    simp only [setCache, lookupCache]
    rw [if_neg hk]
  | cons kv rest ih =>
    obtain ⟨k2, e2⟩ := kv
    simp only [setCache]
    by_cases h : key = k2
    · rw [if_pos h]
      simp only [lookupCache]
      by_cases h2 : k = k2
      · exact absurd (h2.trans h.symm) hk
      · rw [if_neg h2, if_neg h2]
    · rw [if_neg h]
      simp only [lookupCache]
      by_cases h2 : k = k2
      · rw [if_pos h2, if_pos h2]
      · rw [if_neg h2, if_neg h2]
        exact ih

/-- Cache storage invariant of the `/transcribe` loop: any entry of the
cache left behind by a batch was either already present or holds an
outcome whose status is "success" or "processing" — never an error. -/
theorem transcribeUrls_cache_status (oracle : String → Nat → ProviderResult)
    (lang : String) (text : Bool) (mode : String) (now : Nat) :
    ∀ (urls : List String) (cache0 : List (String × CacheEntry)) (k : String)
      (e : CacheEntry),
      lookupCache k (transcribeUrls oracle lang text mode now urls cache0).cache =
        some e →
      lookupCache k cache0 = some e ∨ e.result.status = "success" ∨
        e.result.status = "processing" := by
  intro urls
  induction urls with
  | nil => intro cache0 k e h; exact Or.inl h
  | cons url rest ih =>
    intro cache0 k e h
    simp only [transcribeUrls] at h
    cases hc : lookupCache (_hash_url url) cache0 with
    | some entry =>
      rw [hc] at h
      dsimp only at h
      by_cases ht : now - entry.timestamp < CACHE_TTL
      · rw [if_pos ht] at h
        exact ih cache0 k e h
      · rw [if_neg ht] at h
        rcases ih _ k e h with h2 | h2 | h2
        · by_cases hst : ((_transcribe_with_retry (oracle url) url lang text mode
              defaultMaxRetries).1.status == "success" ||
              (_transcribe_with_retry (oracle url) url lang text mode
              defaultMaxRetries).1.status == "processing") = true
          · rw [if_pos hst] at h2
            by_cases hk : k = _hash_url url
            · rw [hk, lookupCache_setCache_self] at h2
              obtain rfl := Option.some.inj h2
              rcases Bool.or_eq_true_iff.mp hst with hs | hs
              · exact Or.inr (Or.inl (eq_of_beq hs))
              · exact Or.inr (Or.inr (eq_of_beq hs))
            · rw [lookupCache_setCache_ne k _ hk] at h2
              rw [lookupCache_removeCache_ne k _ hk] at h2
              exact Or.inl h2
          · rw [if_neg hst] at h2
            by_cases hk : k = _hash_url url
            · rw [hk, lookupCache_removeCache_self] at h2
              exact absurd h2 (by simp)
            · rw [lookupCache_removeCache_ne k _ hk] at h2
              exact Or.inl h2
        · exact Or.inr (Or.inl h2)
        · exact Or.inr (Or.inr h2)
    | none =>
      rw [hc] at h
      dsimp only at h
      rcases ih _ k e h with h2 | h2 | h2
      · by_cases hst : ((_transcribe_with_retry (oracle url) url lang text mode
            defaultMaxRetries).1.status == "success" ||
            (_transcribe_with_retry (oracle url) url lang text mode
            defaultMaxRetries).1.status == "processing") = true
        · rw [if_pos hst] at h2
          by_cases hk : k = _hash_url url
          · rw [hk, lookupCache_setCache_self] at h2
            obtain rfl := Option.some.inj h2
            rcases Bool.or_eq_true_iff.mp hst with hs | hs
            · exact Or.inr (Or.inl (eq_of_beq hs))
            · exact Or.inr (Or.inr (eq_of_beq hs))
          · rw [lookupCache_setCache_ne k _ hk] at h2
            exact Or.inl h2
        · rw [if_neg hst] at h2
          exact Or.inl h2
      · exact Or.inr (Or.inl h2)
      · exact Or.inr (Or.inr h2)

/-- Claim C10: the `/transcribe` endpoint stores an outcome in the cache
only when its status is "success" or "processing", so error outcomes are
never cached; consequently, for a URL absent from the cache whose fetch
returns an error, the request performs a fresh fetch, leaves the cache
unchanged, and a subsequent request with the same URL performs another
fresh fetch instead of serving a cached error. -/
theorem c10_errors_not_cached (oracle : String → Nat → ProviderResult)
    (lang mode : String) (text : Bool) (now : Nat)
    (cache : List (String × CacheEntry)) (url : String)
    (hmiss : lookupCache (_hash_url url) cache = none)
    (herr : (_transcribe_with_retry (oracle url) url lang text mode
      defaultMaxRetries).1.status = "error") :
    (∀ (urls : List String) (cache0 : List (String × CacheEntry)) (k : String)
      (e : CacheEntry),
      lookupCache k (transcribeUrls oracle lang text mode now urls cache0).cache =
        some e →
      lookupCache k cache0 = some e ∨ e.result.status = "success" ∨
        e.result.status = "processing") ∧
    url ∈ (transcribeUrls oracle lang text mode now [url] cache).fetched ∧
    (transcribeUrls oracle lang text mode now [url] cache).cache = cache ∧
    url ∈ (transcribeUrls oracle lang text mode now [url]
      (transcribeUrls oracle lang text mode now [url] cache).cache).fetched := by
  have hone : transcribeUrls oracle lang text mode now [url] cache =
      { results := [(_transcribe_with_retry (oracle url) url lang text mode
          defaultMaxRetries).1], cache := cache, fetched := [url] } := by
    simp only [transcribeUrls]
    rw [hmiss]
    dsimp only
    rw [show ((_transcribe_with_retry (oracle url) url lang text mode
        defaultMaxRetries).1.status == "success" ||
        (_transcribe_with_retry (oracle url) url lang text mode
        defaultMaxRetries).1.status == "processing") = false by rw [herr]; rfl]
    simp
  refine ⟨transcribeUrls_cache_status oracle lang text mode now, ?_, ?_, ?_⟩
  · rw [hone]
    exact List.mem_singleton.mpr rfl
  · rw [hone]
  · rw [hone]
    show url ∈ (transcribeUrls oracle lang text mode now [url] cache).fetched
    rw [hone]
    exact List.mem_singleton.mpr rfl

/-- Witness for C10 at a concrete URL, empty cache and failing provider. -/
theorem c10_errors_not_cached_witness :
    url10w ∈ (transcribeUrls oracle10w "en" true "auto" 0 [url10w] []).fetched ∧
    (transcribeUrls oracle10w "en" true "auto" 0 [url10w] []).cache = [] ∧
    url10w ∈ (transcribeUrls oracle10w "en" true "auto" 0 [url10w]
      (transcribeUrls oracle10w "en" true "auto" 0 [url10w] []).cache).fetched := by
  have h := c10_errors_not_cached oracle10w "en" "auto" true 0 [] url10w rfl rfl
  exact ⟨h.2.1, h.2.2.1, h.2.2.2⟩
